import Mathlib

/-!
Shallow embedding of the trading-simulation backend test harness
(`test.py`, class `TradingBackendTester`) and proofs about its
recorded outcomes.  HTTP traffic is modelled by passing each check the
status code and JSON body the service would return; JSON values are the
inductive `JVal`; Python exceptions escaping a check are modelled with
`Except String`.
-/

namespace LiveTradingSim

/-- JSON values as produced by `response.json()`.  Rational numbers stand
for JSON numbers. -/
inductive JVal where
  | null : JVal
  | jbool : Bool → JVal
  | num : ℚ → JVal
  | str : String → JVal
  | arr : List JVal → JVal
  | obj : List (String × JVal) → JVal

/-- Python `field in data` restricted to JSON object bodies (key
membership).  On non-object values the real `in` raises TypeError for
null/number/bool and does element/substring matching for list/str; that
behavior is modelled faithfully by the fallible `pyContains` below and
matters to the health check, while the candlestick theorems use this
total function only under hypotheses that pin the value to an object. -/
def hasField (v : JVal) (key : String) : Bool :=
  match v with
  | JVal.obj fields => fields.any (fun p => p.1 == key)
  | _ => false

/-- Python `data[key]` lookup on a JSON object, `none` when absent. -/
def getField (v : JVal) (key : String) : Option JVal :=
  match v with
  | JVal.obj fields => (fields.find? (fun p => p.1 == key)).map Prod.snd
  | _ => none

/-- One entry of `self.test_results` (test.py lines 76-82).  The
wall-clock `timestamp` and the raw `data` payload are diagnostic only and
omitted from the model. -/
structure TestResult where
  test : String
  success : Bool
  message : String
deriving Repr, DecidableEq

/-- The mutable counters and outcome log of a `TradingBackendTester`. -/
structure TesterState where
  tests_run : Nat
  tests_passed : Nat
  tests_failed : Nat
  test_results : List TestResult
deriving Repr

/-- The counters of a freshly constructed tester (test.py lines 34-40). -/
def initialState : TesterState :=
  { tests_run := 0, tests_passed := 0, tests_failed := 0, test_results := [] }

/-- `record_test_result` (test.py lines 66-82): bump `tests_run`, bump
the matching pass/fail counter, append one entry to `test_results`.  The
console logging side effect is not modelled. -/
def record_test_result (st : TesterState) (test_name : String) (success : Bool)
    (message : String) : TesterState :=
  { tests_run := st.tests_run + 1
    tests_passed := if success then st.tests_passed + 1 else st.tests_passed
    tests_failed := if success then st.tests_failed else st.tests_failed + 1
    test_results := st.test_results ++ [⟨test_name, success, message⟩] }

/-- A sequence of `record_test_result` calls applied in order. -/
def runRecords (st : TesterState) : List (String × Bool × String) → TesterState
  | [] => st
  | (n, s, m) :: rest => runRecords (record_test_result st n s m) rest

/-- `success_rate` as computed in `print_test_summary` (test.py line
736): a percentage, `0` when no tests ran. -/
def success_rate (st : TesterState) : ℚ :=
  if 0 < st.tests_run then ((st.tests_passed : ℚ) / (st.tests_run : ℚ)) * 100 else 0

/-- The four verdict tiers printed at the end of `print_test_summary`
(test.py lines 771-778). -/
inductive Verdict where
  | fullyFunctional : Verdict
  | workingWell : Verdict
  | partiallyWorking : Verdict
  | needsFixes : Verdict
deriving Repr, DecidableEq

/-- The verdict cascade of `print_test_summary` (test.py lines 771-778),
a function of the success rate alone. -/
def final_verdict (rate : ℚ) : Verdict :=
  if 90 ≤ rate then Verdict.fullyFunctional
  else if 75 ≤ rate then Verdict.workingWell
  else if 60 ≤ rate then Verdict.partiallyWorking
  else Verdict.needsFixes

lemma record_inv (st : TesterState) (n : String) (s : Bool) (m : String)
    (h1 : st.tests_run = st.tests_passed + st.tests_failed)
    (h2 : st.tests_passed ≤ st.tests_run) :
    (record_test_result st n s m).tests_run
        = (record_test_result st n s m).tests_passed + (record_test_result st n s m).tests_failed
      ∧ (record_test_result st n s m).tests_passed ≤ (record_test_result st n s m).tests_run := by
  cases s <;> simp [record_test_result] <;> omega

lemma runRecords_inv (ops : List (String × Bool × String)) :
    ∀ st : TesterState, st.tests_run = st.tests_passed + st.tests_failed →
      st.tests_passed ≤ st.tests_run →
      (runRecords st ops).tests_run
          = (runRecords st ops).tests_passed + (runRecords st ops).tests_failed
        ∧ (runRecords st ops).tests_passed ≤ (runRecords st ops).tests_run := by
  induction ops with
  | nil => intro st h1 h2; exact ⟨h1, h2⟩
  | cons op rest ih =>
      intro st h1 h2
      obtain ⟨n, s, m⟩ := op
      have h := record_inv st n s m h1 h2
      simpa [runRecords] using ih (record_test_result st n s m) h.1 h.2

/-- C2: every `record_test_result` call increments `tests_run` by exactly
one and appends exactly one entry to the log, leaving prior entries in
place; after any sequence of calls from the initial state the counters
satisfy `tests_run = tests_passed + tests_failed`, and the derived ratio
`tests_passed / tests_run` (taken as `0` when `tests_run = 0`) lies in
`[0, 1]`. -/
theorem C2_recorder_invariants :
    (∀ (st : TesterState) (n : String) (s : Bool) (m : String),
        (record_test_result st n s m).tests_run = st.tests_run + 1
        ∧ (record_test_result st n s m).test_results = st.test_results ++ [⟨n, s, m⟩]) ∧
    (∀ ops : List (String × Bool × String),
        (runRecords initialState ops).tests_run
          = (runRecords initialState ops).tests_passed
            + (runRecords initialState ops).tests_failed) ∧
    (∀ ops : List (String × Bool × String),
        0 ≤ (if 0 < (runRecords initialState ops).tests_run
             then ((runRecords initialState ops).tests_passed : ℚ)
                  / ((runRecords initialState ops).tests_run : ℚ)
             else 0)
        ∧ (if 0 < (runRecords initialState ops).tests_run
           then ((runRecords initialState ops).tests_passed : ℚ)
                / ((runRecords initialState ops).tests_run : ℚ)
           else 0) ≤ 1) := by
  refine ⟨fun st n s m => ⟨rfl, rfl⟩, ?_, ?_⟩
  · intro ops
    exact (runRecords_inv ops initialState rfl (by simp [initialState])).1
  · intro ops
    have h := runRecords_inv ops initialState rfl (by simp [initialState])
    split_ifs with hpos
    · constructor
      · positivity
      · rw [div_le_one (by exact_mod_cast hpos)]
        exact_mod_cast h.2
    · simp

/-- C9: the verdict tier is a pure function of the success rate: fully
functional exactly when the rate is at least 90, else working well
exactly when at least 75, else partially working exactly when at least
60, else needs fixes; and the rate is `passed/total` (as a percentage),
`0` when no tests ran. -/
theorem C9_verdict_tiers :
    (∀ st : TesterState, st.tests_run = 0 → success_rate st = 0) ∧
    (∀ st : TesterState, 0 < st.tests_run →
        success_rate st = ((st.tests_passed : ℚ) / (st.tests_run : ℚ)) * 100) ∧
    (∀ r : ℚ, final_verdict r = Verdict.fullyFunctional ↔ 90 ≤ r) ∧
    (∀ r : ℚ, final_verdict r = Verdict.workingWell ↔ 75 ≤ r ∧ r < 90) ∧
    (∀ r : ℚ, final_verdict r = Verdict.partiallyWorking ↔ 60 ≤ r ∧ r < 75) ∧
    (∀ r : ℚ, final_verdict r = Verdict.needsFixes ↔ r < 60) := by
  refine ⟨?_, ?_, ?_, ?_, ?_, ?_⟩
  · intro st h; simp [success_rate, h]
  · intro st h; simp [success_rate, h]
  · intro r
    unfold final_verdict
    split_ifs with h1 h2 h3 <;> simp_all <;> intros <;> linarith
  · intro r
    unfold final_verdict
    split_ifs with h1 h2 h3 <;> simp_all <;> intros <;> linarith
  · intro r
    unfold final_verdict
    split_ifs with h1 h2 h3 <;> simp_all <;> intros <;> linarith
  · intro r
    unfold final_verdict
    split_ifs with h1 h2 h3 <;> simp_all <;> intros <;> linarith

/-- C9 witness: the theorem applied at the empty tester state and at a
concrete rate of 95. -/
theorem C9_verdict_tiers_witness :
    initialState.tests_run = 0 ∧ success_rate initialState = 0
      ∧ (final_verdict 95 = Verdict.fullyFunctional ↔ 90 ≤ (95 : ℚ)) :=
  ⟨rfl, C9_verdict_tiers.1 initialState rfl, C9_verdict_tiers.2.2.1 95⟩

/-- The protected non-admin endpoints probed by
`test_authentication_protection` (test.py lines 306-311), as
(method, path) pairs; the request body of the POST case is fixed in the
source and does not influence the recorded outcome. -/
def protected_endpoints : List (String × String) :=
  [("POST", "/trade"), ("GET", "/portfolio"), ("GET", "/trades"), ("GET", "/shorts")]

/-- The outcome recorded by `test_authentication_protection` for one
endpoint given the response status (test.py lines 320-331): pass exactly
on status 401. -/
def authProtectionResult (endpoint : String) (status : Nat) : TestResult :=
  if status == 401 then
    ⟨"Auth Protection " ++ endpoint, true, "Properly requires authentication"⟩
  else
    ⟨"Auth Protection " ++ endpoint, false, "Expected 401, got " ++ toString status⟩

/-- `test_authentication_protection` (test.py lines 303-334): one
outcome per protected endpoint, `resp` giving the service's status for
each path. -/
def test_authentication_protection (resp : String → Nat) (st : TesterState) : TesterState :=
  protected_endpoints.foldl
    (fun acc me =>
      let r := authProtectionResult me.2 (resp me.2)
      record_test_result acc r.test r.success r.message) st

/-- The admin endpoints probed by `test_admin_endpoint_protection`
(test.py lines 415-420). -/
def admin_endpoints : List (String × String) :=
  [("GET", "/admin/simulation/status"), ("POST", "/admin/simulation/start"),
   ("POST", "/admin/simulation/stop"), ("POST", "/admin/simulation/square-off")]

/-- The outcome recorded by `test_admin_endpoint_protection` for one
endpoint given the response status (test.py lines 430-441): pass exactly
on status 401, 403 or 503. -/
def adminProtectionResult (endpoint : String) (status : Nat) : TestResult :=
  if status == 401 || status == 403 || status == 503 then
    ⟨"Admin Protection " ++ endpoint, true, "Properly protected with " ++ toString status⟩
  else
    ⟨"Admin Protection " ++ endpoint, false, "Expected 401/403/503, got " ++ toString status⟩

/-- `test_admin_endpoint_protection` (test.py lines 412-444). -/
def test_admin_endpoint_protection (resp : String → Nat) (st : TesterState) : TesterState :=
  admin_endpoints.foldl
    (fun acc me =>
      let r := adminProtectionResult me.2 (resp me.2)
      record_test_result acc r.test r.success r.message) st

lemma authProtectionResult_success (endpoint : String) (status : Nat) :
    (authProtectionResult endpoint status).success = (status == 401) := by
  unfold authProtectionResult
  cases h : status == 401 <;> simp [h]

lemma adminProtectionResult_success (endpoint : String) (status : Nat) :
    (adminProtectionResult endpoint status).success
      = (status == 401 || status == 403 || status == 503) := by
  unfold adminProtectionResult
  cases h : (status == 401 || status == 403 || status == 503) <;> simp_all

/-- C1 counterexample: an unauthenticated `GET /portfolio` answered with
status 403 is recorded as a failed outcome by the harness, although 403
is in the claimed accepted set. -/
theorem C1_counterexample :
    (authProtectionResult "/portfolio" 403).success = false ∧ 403 ∈ [401, 403, 503] := by
  constructor
  · rfl
  · simp

/-- C1 (amended): for the four non-admin protected endpoints the check
records a passed outcome exactly when the status is 401; for the four
admin endpoints it records a passed outcome exactly when the status is
in 401, 403, 503; each check appends one outcome per listed endpoint,
in order. -/
theorem C1_protection_statuses :
    (∀ status : Nat, protected_endpoints.all
        (fun me => (authProtectionResult me.2 status).success == (status == 401)) = true) ∧
    (∀ status : Nat, admin_endpoints.all
        (fun me => (adminProtectionResult me.2 status).success
            == (status == 401 || status == 403 || status == 503)) = true) ∧
    (∀ (resp : String → Nat) (st : TesterState),
        (test_authentication_protection resp st).test_results
          = st.test_results
            ++ protected_endpoints.map (fun me => authProtectionResult me.2 (resp me.2))) ∧
    (∀ (resp : String → Nat) (st : TesterState),
        (test_admin_endpoint_protection resp st).test_results
          = st.test_results
            ++ admin_endpoints.map (fun me => adminProtectionResult me.2 (resp me.2))) := by
  refine ⟨?_, ?_, ?_, ?_⟩
  · intro status
    simp [protected_endpoints, authProtectionResult_success]
  · intro status
    simp [admin_endpoints, adminProtectionResult_success]
  · intro resp st
    simp [test_authentication_protection, protected_endpoints, record_test_result]
  · intro resp st
    simp [test_admin_endpoint_protection, admin_endpoints, record_test_result]

/-- The four malformed `POST /trade` bodies of
`test_trade_endpoint_validation` with their descriptions (test.py lines
338-347). -/
def trade_test_cases : List (JVal × String) :=
  [(JVal.obj [], "Missing required fields"),
   (JVal.obj [("symbol", JVal.str "TEST"), ("order_type", JVal.str "invalid"),
              ("quantity", JVal.num 10)], "Invalid order type"),
   (JVal.obj [("symbol", JVal.str "TEST"), ("order_type", JVal.str "buy")], "Missing quantity"),
   (JVal.obj [("symbol", JVal.str "TEST"), ("order_type", JVal.str "buy"),
              ("quantity", JVal.num 0)], "Invalid quantity")]

/-- The outcome recorded for one malformed trade body given the response
status (test.py lines 354-365): pass exactly on status 400 or 401. -/
def tradeValidationResult (description : String) (status : Nat) : TestResult :=
  if status == 400 || status == 401 then
    ⟨"Trade Validation (" ++ description ++ ")", true,
      "Properly rejected with " ++ toString status⟩
  else
    ⟨"Trade Validation (" ++ description ++ ")", false,
      "Expected 400/401, got " ++ toString status⟩

/-- `test_trade_endpoint_validation` (test.py lines 336-368), `resp`
giving the service's status for each request body. -/
def test_trade_endpoint_validation (resp : JVal → Nat) (st : TesterState) : TesterState :=
  trade_test_cases.foldl
    (fun acc tc =>
      let r := tradeValidationResult tc.2 (resp tc.1)
      record_test_result acc r.test r.success r.message) st

lemma tradeValidationResult_success (description : String) (status : Nat) :
    (tradeValidationResult description status).success = (status == 400 || status == 401) := by
  unfold tradeValidationResult
  cases h : (status == 400 || status == 401) <;> simp_all

/-- C5: for each of the four malformed trade bodies the check records a
passed outcome exactly when the status is 400 or 401 and a failed
outcome otherwise, appending one outcome per case in order. -/
theorem C5_trade_validation :
    (∀ (description : String) (status : Nat),
        ((tradeValidationResult description status).success = true
          ↔ (status = 400 ∨ status = 401))) ∧
    (∀ (resp : JVal → Nat) (st : TesterState),
        (test_trade_endpoint_validation resp st).test_results
          = st.test_results
            ++ trade_test_cases.map (fun tc => tradeValidationResult tc.2 (resp tc.1))) := by
  constructor
  · intro description status
    rw [tradeValidationResult_success]
    simp
  · intro resp st
    simp [test_trade_endpoint_validation, trade_test_cases, record_test_result]

/-- The intentionally invalid paths of `test_invalid_endpoints`
(test.py lines 499-504). -/
def invalid_endpoints : List String :=
  ["/nonexistent", "/trade/invalid", "/portfolio/fake", "/admin/invalid"]

/-- The outcome recorded for one invalid path given the response status
(test.py lines 510-521): pass exactly on status 404. -/
def invalidEndpointResult (endpoint : String) (status : Nat) : TestResult :=
  if status == 404 then
    ⟨"Invalid Endpoint " ++ endpoint, true, "Properly returns 404"⟩
  else
    ⟨"Invalid Endpoint " ++ endpoint, false, "Expected 404, got " ++ toString status⟩

/-- `test_invalid_endpoints` (test.py lines 496-524): a GET per invalid
path, one outcome each. -/
def test_invalid_endpoints (resp : String → Nat) (st : TesterState) : TesterState :=
  invalid_endpoints.foldl
    (fun acc e =>
      let r := invalidEndpointResult e (resp e)
      record_test_result acc r.test r.success r.message) st

lemma invalidEndpointResult_success (endpoint : String) (status : Nat) :
    (invalidEndpointResult endpoint status).success = (status == 404) := by
  unfold invalidEndpointResult
  cases h : status == 404 <;> simp [h]

/-- C10: for each of the four invalid paths the harness records a passed
outcome exactly when the status is 404 and a failed outcome otherwise,
appending one outcome per path in order. -/
theorem C10_invalid_endpoints :
    (∀ (endpoint : String) (status : Nat),
        ((invalidEndpointResult endpoint status).success = true ↔ status = 404)) ∧
    (∀ (resp : String → Nat) (st : TesterState),
        (test_invalid_endpoints resp st).test_results
          = st.test_results
            ++ invalid_endpoints.map (fun e => invalidEndpointResult e (resp e))) := by
  constructor
  · intro endpoint status
    rw [invalidEndpointResult_success]
    simp
  · intro resp st
    simp [test_invalid_endpoints, invalid_endpoints, record_test_result]

/-- Modelled from the spec: the Concurrency Stress Runner of spec
section 4.4 has no implementation under src/ (the harness imports
`threading` but never uses it).  Fixed worker count of 5. -/
def stressConnectionCount : Nat := 5

/-- Modelled from the spec: the per-connection hold duration in seconds
(connect, hold, disconnect). -/
def stressHoldSeconds : Nat := 2

/-- Modelled from the spec: exact success ratio `successes / count` over
the joined worker outcomes. -/
def stressRatio (outcomes : List Bool) : ℚ :=
  (outcomes.count true : ℚ) / (outcomes.length : ℚ)

/-- Modelled from the spec: the runner joins all workers and computes
the ratio from the full outcome vector. -/
def stressRun (workers : Fin stressConnectionCount → Bool) : ℚ :=
  stressRatio ((List.finRange stressConnectionCount).map workers)

/-- Modelled from the spec: the overall stress test passes when the
ratio is at least 0.8. -/
def stressPass (ratio : ℚ) : Bool :=
  decide ((8 : ℚ) / 10 ≤ ratio)

/-- C8: with 5 workers and a 2-second hold, the stress check passes
exactly when at least 4 of the 5 joined workers succeed; the ratio is
exact, so 4 successes give ratio 4/5 (pass) and 3 successes give 3/5
(fail). -/
theorem C8_stress_threshold :
    (∀ workers : Fin stressConnectionCount → Bool,
        (stressPass (stressRun workers) = true
          ↔ 4 ≤ ((List.finRange stressConnectionCount).map workers).count true)) ∧
    (stressRun (fun i => decide (i.val < 4)) = 4 / 5
      ∧ stressPass (4 / 5) = true) ∧
    (stressRun (fun i => decide (i.val < 3)) = 3 / 5
      ∧ stressPass (3 / 5) = false) ∧
    stressConnectionCount = 5 ∧ stressHoldSeconds = 2 := by
  have hpass : ∀ q : ℚ, stressPass q = true ↔ (8 : ℚ) / 10 ≤ q := by
    intro q
    simp [stressPass]
  refine ⟨?_, ⟨?_, ?_⟩, ⟨?_, ?_⟩, rfl, rfl⟩
  · intro workers
    have hlen : ((List.finRange stressConnectionCount).map workers).length = 5 := by
      simp [stressConnectionCount]
    rw [hpass]
    unfold stressRun stressRatio
    rw [hlen]
    rw [div_le_div_iff (by norm_num) (by norm_num)]
    constructor
    · intro h
      have h2 : (40 : ℚ)
          ≤ (((List.finRange stressConnectionCount).map workers).count true : ℚ) * 10 := by
        push_cast at h ⊢
        linarith
      have h3 : 40 ≤ ((List.finRange stressConnectionCount).map workers).count true * 10 := by
        exact_mod_cast h2
      omega
    · intro h
      have h3 : 40 ≤ ((List.finRange stressConnectionCount).map workers).count true * 10 := by
        omega
      have h2 : (40 : ℚ)
          ≤ (((List.finRange stressConnectionCount).map workers).count true : ℚ) * 10 := by
        exact_mod_cast h3
      push_cast
      linarith
  · have hmap : (List.finRange stressConnectionCount).map (fun i => decide (i.val < 4))
        = [true, true, true, true, false] := by decide
    unfold stressRun
    rw [hmap]
    have hcount : List.count true [true, true, true, true, false] = 4 := by decide
    unfold stressRatio
    rw [hcount]
    norm_num
  · rw [hpass]
    norm_num
  · have hmap : (List.finRange stressConnectionCount).map (fun i => decide (i.val < 3))
        = [true, true, true, false, false] := by decide
    unfold stressRun
    rw [hmap]
    have hcount : List.count true [true, true, true, false, false] = 3 := by decide
    unfold stressRatio
    rw [hcount]
    norm_num
  · have : ¬ ((8 : ℚ) / 10 ≤ 3 / 5) := by norm_num
    simp [stressPass, this]

lemma hasField_of_getField :
    ∀ (body : JVal) (k : String) (v : JVal), getField body k = some v → hasField body k = true := by
  intro body k v h
  cases body with
  | obj fs =>
      unfold getField at h
      obtain ⟨p, hp, hv⟩ := Option.map_eq_some'.1 h
      have h2 := List.find?_some (p := fun q : String × JVal => q.1 == k) hp
      unfold hasField
      exact List.any_eq_true.2 ⟨p, List.mem_of_find?_eq_some hp, by simpa using h2⟩
  | null => simp [getField] at h
  | jbool b => simp [getField] at h
  | num q => simp [getField] at h
  | str s => simp [getField] at h
  | arr xs => simp [getField] at h

/-- The fixed interval list of `test_candlestick_endpoint` (test.py
line 243). -/
def intervals : List String := ["1m", "5m", "15m", "1h"]

/-- The per-candle required fields (test.py line 261). -/
def candle_fields : List String := ["time", "open", "high", "low", "close", "volume"]

/-- The outcome name used by the candlestick check. -/
def candlestickName (symbol interval : String) : String :=
  "Candlestick (" ++ symbol ++ ", " ++ interval ++ ")"

/-- The outcome of one candlestick probe (test.py lines 252-292).  On a
200 response with the three required top-level fields the source reads
`data["data"]` and, when it is non-empty, validates only its FIRST entry
(`candle = candlesticks[0]`).  A `data` field that is neither a list nor
empty-falsy makes the Python `len` call raise, modelled as
`Except.error`; the claims only exercise list-shaped `data`. -/
def candlestickOutcome (symbol interval : String) (status : Nat) (body : JVal) :
    Except String TestResult :=
  if status == 200 then
    if (["symbol", "interval", "data"].all (fun f => hasField body f)) then
      match getField body "data" with
      | some (JVal.arr (candle :: rest)) =>
          if candle_fields.all (fun f => hasField candle f) then
            Except.ok ⟨candlestickName symbol interval, true,
              "Retrieved " ++ toString (candle :: rest).length ++ " candlesticks"⟩
          else
            Except.ok ⟨candlestickName symbol interval, false,
              "Invalid candlestick data structure"⟩
      | some (JVal.arr []) =>
          Except.ok ⟨candlestickName symbol interval, true, "Retrieved 0 candlesticks"⟩
      | _ => Except.error "TypeError: object has no length"
    else
      Except.ok ⟨candlestickName symbol interval, false, "Missing required fields"⟩
  else
    Except.ok ⟨candlestickName symbol interval, false, "HTTP " ++ toString status⟩

/-- The interval loop of `test_candlestick_endpoint`: an uncaught
exception (only `requests` errors are caught in the source) aborts the
remaining intervals. -/
def runCandleChecks (symbol : String) (resp : String → Nat × JVal) :
    List String → TesterState → Except String TesterState
  | [], st => Except.ok st
  | interval :: rest, st =>
      match candlestickOutcome symbol interval (resp interval).1 (resp interval).2 with
      | Except.ok r => runCandleChecks symbol resp rest (record_test_result st r.test r.success r.message)
      | Except.error e => Except.error e

/-- `test_candlestick_endpoint` (test.py lines 241-299), `resp` giving
the service's status and body for each interval. -/
def test_candlestick_endpoint (symbol : String) (resp : String → Nat × JVal)
    (st : TesterState) : Except String TesterState :=
  runCandleChecks symbol resp intervals st

/-- A candlestick entry carrying all six required fields. -/
def goodCandle : JVal :=
  JVal.obj [("time", JVal.num 1), ("open", JVal.num 1), ("high", JVal.num 2),
            ("low", JVal.num 1), ("close", JVal.num 2), ("volume", JVal.num 10)]

/-- A candlestick entry missing the `volume` field. -/
def badCandle : JVal :=
  JVal.obj [("time", JVal.num 2), ("open", JVal.num 1), ("high", JVal.num 2),
            ("low", JVal.num 1), ("close", JVal.num 2)]

/-- A 200 body whose `data` array has a well-formed first entry and a
malformed second entry. -/
def mixedCandleBody : JVal :=
  JVal.obj [("symbol", JVal.str "AAPL"), ("interval", JVal.str "1m"),
            ("data", JVal.arr [goodCandle, badCandle])]

/-- C3 counterexample: a 200 response whose second `data` entry lacks
`volume` is still recorded as a pass, because the source inspects only
the first entry. -/
theorem C3_counterexample :
    (candlestickOutcome "AAPL" "1m" 200 mixedCandleBody).map TestResult.success
        = Except.ok true
      ∧ hasField badCandle "volume" = false := ⟨rfl, rfl⟩

/-- C3 (amended): for each interval the check records an independent
outcome; a 200 response with the required fields and empty `data` is a
pass; with non-empty `data` it is a pass exactly when the FIRST entry
carries all of time, open, high, low, close and volume (later entries
are not inspected); and when every interval's response yields an
outcome, the four outcomes are appended in interval order. -/
theorem C3_candlestick_shape :
    (∀ (symbol interval : String) (body : JVal),
        hasField body "symbol" = true → hasField body "interval" = true →
        getField body "data" = some (JVal.arr []) →
        candlestickOutcome symbol interval 200 body
          = Except.ok ⟨candlestickName symbol interval, true, "Retrieved 0 candlesticks"⟩) ∧
    (∀ (symbol interval : String) (body : JVal) (candle : JVal) (rest : List JVal),
        hasField body "symbol" = true → hasField body "interval" = true →
        getField body "data" = some (JVal.arr (candle :: rest)) →
        candlestickOutcome symbol interval 200 body
          = Except.ok (if candle_fields.all (fun f => hasField candle f) then
              ⟨candlestickName symbol interval, true,
                "Retrieved " ++ toString (candle :: rest).length ++ " candlesticks"⟩
            else
              ⟨candlestickName symbol interval, false, "Invalid candlestick data structure"⟩)) ∧
    (∀ (symbol : String) (resp : String → Nat × JVal) (st : TesterState)
        (r1 r2 r3 r4 : TestResult),
        candlestickOutcome symbol "1m" (resp "1m").1 (resp "1m").2 = Except.ok r1 →
        candlestickOutcome symbol "5m" (resp "5m").1 (resp "5m").2 = Except.ok r2 →
        candlestickOutcome symbol "15m" (resp "15m").1 (resp "15m").2 = Except.ok r3 →
        candlestickOutcome symbol "1h" (resp "1h").1 (resp "1h").2 = Except.ok r4 →
        ∃ st2, test_candlestick_endpoint symbol resp st = Except.ok st2
          ∧ st2.test_results = st.test_results ++ [r1, r2, r3, r4]) := by
  refine ⟨?_, ?_, ?_⟩
  · intro symbol interval body hs hi hd
    have hd2 := hasField_of_getField body "data" (JVal.arr []) hd
    simp [candlestickOutcome, hs, hi, hd2, hd]
  · intro symbol interval body candle rest hs hi hd
    have hd2 := hasField_of_getField body "data" (JVal.arr (candle :: rest)) hd
    by_cases hc : candle_fields.all (fun f => hasField candle f) = true
    · simp [candlestickOutcome, hs, hi, hd2, hd, hc]
    · have hc2 : candle_fields.all (fun f => hasField candle f) = false := by
        simpa using hc
      simp [candlestickOutcome, hs, hi, hd2, hd, hc2]
  · intro symbol resp st r1 r2 r3 r4 h1 h2 h3 h4
    refine ⟨record_test_result (record_test_result (record_test_result
        (record_test_result st r1.test r1.success r1.message)
        r2.test r2.success r2.message) r3.test r3.success r3.message)
        r4.test r4.success r4.message, ?_, ?_⟩
    · unfold test_candlestick_endpoint intervals
      simp only [runCandleChecks, h1, h2, h3, h4]
    · simp [record_test_result, List.append_assoc]

/-- A 200 candlestick body with an empty `data` array. -/
def emptyCandleBody : JVal :=
  JVal.obj [("symbol", JVal.str "AAPL"), ("interval", JVal.str "1m"),
            ("data", JVal.arr [])]

/-- C3 witness: the amended theorem applied to a concrete empty-data
response. -/
theorem C3_candlestick_shape_witness :
    hasField emptyCandleBody "symbol" = true ∧ hasField emptyCandleBody "interval" = true
      ∧ getField emptyCandleBody "data" = some (JVal.arr [])
      ∧ candlestickOutcome "AAPL" "1m" 200 emptyCandleBody
          = Except.ok ⟨candlestickName "AAPL" "1m", true, "Retrieved 0 candlesticks"⟩ :=
  ⟨rfl, rfl, rfl, C3_candlestick_shape.1 "AAPL" "1m" emptyCandleBody rfl rfl rfl⟩

/-- Python `len` on a JSON value: lists, objects and strings are sized,
anything else raises `TypeError`. -/
def jLen : JVal → Option Nat
  | JVal.arr xs => some xs.length
  | JVal.obj fs => some fs.length
  | JVal.str s => some s.length
  | _ => none

/-- The outcome of `test_leaderboard_endpoint` (test.py lines 370-410)
given the status and body of the plain request and of the follow-up
`?limit=5` request.  On a 200 list response the check records a PASS
whether or not the limit request succeeds; only the message differs.
The non-200 failure message carries `response.text`, which is not
modelled beyond the status code. -/
def leaderboardOutcome (status : Nat) (body : JVal) (limitStatus : Nat)
    (limitBody : JVal) : Except String TestResult :=
  if status == 200 then
    match body with
    | JVal.arr leaderboard =>
        if limitStatus == 200 then
          match jLen limitBody with
          | some n =>
              Except.ok ⟨"Leaderboard Endpoint", true,
                "Retrieved " ++ toString leaderboard.length ++ " entries, limit test: "
                  ++ toString n ++ " entries"⟩
          | none => Except.error "TypeError: object has no length"
        else
          Except.ok ⟨"Leaderboard Endpoint", true,
            "Retrieved " ++ toString leaderboard.length ++ " entries (limit test failed)"⟩
    | _ => Except.ok ⟨"Leaderboard Endpoint", false, "Invalid response format"⟩
  else
    Except.ok ⟨"Leaderboard Endpoint", false, "HTTP " ++ toString status⟩

/-- C7 counterexample: a 200 list response whose follow-up limit request
fails with 500 is still recorded as a passed outcome, so a dishonored
limit parameter does not yield a failure. -/
theorem C7_counterexample :
    (leaderboardOutcome 200 (JVal.arr []) 500 JVal.null).map TestResult.success
        = Except.ok true
      ∧ 500 ≠ 200 := ⟨rfl, by decide⟩

/-- C7 (amended): whenever the leaderboard check records an outcome, the
outcome is a pass exactly when the plain request returned 200 with a
list-shaped body; the limit request's result never affects pass/fail,
only the message. -/
theorem C7_leaderboard_pass :
    ∀ (status : Nat) (body : JVal) (limitStatus : Nat) (limitBody : JVal) (r : TestResult),
      leaderboardOutcome status body limitStatus limitBody = Except.ok r →
      (r.success = true ↔ (status = 200 ∧ ∃ xs, body = JVal.arr xs)) := by
  intro status body limitStatus limitBody r h
  by_cases hs : status = 200
  · subst hs
    cases body with
    | arr xs =>
        constructor
        · intro _
          exact ⟨rfl, xs, rfl⟩
        · intro _
          by_cases hl : limitStatus = 200
          · subst hl
            cases hj : jLen limitBody with
            | some n =>
                simp [leaderboardOutcome, hj] at h
                rw [← h]
            | none => simp [leaderboardOutcome, hj] at h
          · have hl2 : (limitStatus == 200) = false := by simpa using hl
            simp [leaderboardOutcome, hl2] at h
            rw [← h]
        | null => simp [leaderboardOutcome] at h; simp [← h]
        | jbool b => simp [leaderboardOutcome] at h; simp [← h]
        | num q => simp [leaderboardOutcome] at h; simp [← h]
        | str s => simp [leaderboardOutcome] at h; simp [← h]
        | obj fs => simp [leaderboardOutcome] at h; simp [← h]
  · have hs2 : (status == 200) = false := by simpa using hs
    simp [leaderboardOutcome, hs2] at h
    simp [← h, hs]

/-- C7 witness: the amended theorem applied to a concrete 200 list
response with a successful limit request. -/
theorem C7_leaderboard_pass_witness :
    leaderboardOutcome 200 (JVal.arr []) 200 (JVal.arr [])
        = Except.ok ⟨"Leaderboard Endpoint", true, "Retrieved 0 entries, limit test: 0 entries"⟩
      ∧ ((⟨"Leaderboard Endpoint", true,
            "Retrieved 0 entries, limit test: 0 entries"⟩ : TestResult).success = true
          ↔ (200 = 200 ∧ ∃ xs, JVal.arr [] = JVal.arr xs)) :=
  ⟨rfl, C7_leaderboard_pass 200 (JVal.arr []) 200 (JVal.arr []) _ rfl⟩

/-- One captured realtime message: the event name under which the
handler stored it and the symbol carried in its payload (empty when the
payload has none).  The receipt timestamp is diagnostic only and
omitted. -/
structure WSMessage where
  event : String
  symbol : String
deriving Repr, DecidableEq

/-- The outcome name of the market-data check. -/
def wsName (symbol : String) : String := "WebSocket Market Data (" ++ symbol ++ ")"

/-- The `extra_info` suffix of `test_websocket_market_data` (test.py
lines 579-581): mentions leaderboard updates when any were captured. -/
def wsExtraInfo (messages : List WSMessage) : String :=
  if 0 < (messages.filter (fun m => m.event == "leaderboard_update")).length then
    ", " ++ toString (messages.filter (fun m => m.event == "leaderboard_update")).length
      ++ " leaderboard updates"
  else ""

/-- The `success` flag of `test_websocket_market_data` (test.py line
577): at least one tick or at least one historical_data event, with no
look at the event's symbol. -/
def wsSuccess (messages : List WSMessage) : Bool :=
  decide (0 < (messages.filter (fun m => m.event == "tick")).length)
    || decide (0 < (messages.filter (fun m => m.event == "historical_data")).length)

/-- The success message of the check (test.py lines 584-588). -/
def wsPassMessage (messages : List WSMessage) : String :=
  "Received " ++ toString (messages.filter (fun m => m.event == "tick")).length
    ++ " ticks, " ++ toString (messages.filter (fun m => m.event == "historical_data")).length
    ++ " historical" ++ wsExtraInfo messages

/-- The failure message of the check (test.py lines 590-594), citing the
window duration. -/
def wsFailMessage (duration : Nat) (messages : List WSMessage) : String :=
  "No market data received in " ++ toString duration ++ "s" ++ wsExtraInfo messages

/-- `test_websocket_market_data` (test.py lines 556-606) on an already
connected client: the method clears `self.websocket_messages`, emits the
join, sleeps for `duration` seconds, and judges the messages captured
during that window (`arriving`).  `buffer` is the pre-existing captured
collection, discarded by the clear.  Returns the updated tester state,
the captured collection after the window, and the boolean result. -/
def test_websocket_market_data (symbol : String) (duration : Nat)
    (arriving : List WSMessage) (st : TesterState) (buffer : List WSMessage) :
    TesterState × List WSMessage × Bool :=
  let _ := buffer
  let messages := arriving
  let success := wsSuccess messages
  let st2 := if success then
      record_test_result st (wsName symbol) true (wsPassMessage messages)
    else
      record_test_result st (wsName symbol) false (wsFailMessage duration messages)
  (st2, messages, success)

/-- C4 counterexample: subscribed to AAPL, the only captured event is a
tick for MSFT; the check still records a passed outcome, although zero
tick or historical events for the subscribed symbol were captured. -/
theorem C4_counterexample :
    (test_websocket_market_data "AAPL" 5 [⟨"tick", "MSFT"⟩] initialState []).2.2 = true
      ∧ (([⟨"tick", "MSFT"⟩] : List WSMessage).filter
          (fun m => (m.event == "tick" || m.event == "historical_data")
            && m.symbol == "AAPL")).length = 0 := ⟨rfl, rfl⟩

/-- C4 (amended): the captured-event collection is cleared immediately
before the observation window (the messages judged are exactly the
window's arrivals, whatever was buffered before); the check records one
outcome, passed exactly when at least one tick or historical_data event
— for any symbol — was captured; and with zero such events the recorded
outcome is failed with a message citing the window duration. -/
theorem C4_ws_market_data :
    (∀ (symbol : String) (duration : Nat) (arriving : List WSMessage)
        (st : TesterState) (buffer : List WSMessage),
        (test_websocket_market_data symbol duration arriving st buffer).2.1 = arriving) ∧
    (∀ (symbol : String) (duration : Nat) (arriving : List WSMessage)
        (st : TesterState) (buffer : List WSMessage),
        ((test_websocket_market_data symbol duration arriving st buffer).2.2 = true
          ↔ arriving.any (fun m => m.event == "tick" || m.event == "historical_data") = true)) ∧
    (∀ (symbol : String) (duration : Nat) (arriving : List WSMessage)
        (st : TesterState) (buffer : List WSMessage),
        (test_websocket_market_data symbol duration arriving st buffer).1.test_results
          = st.test_results
            ++ [⟨wsName symbol, wsSuccess arriving,
                 if wsSuccess arriving then wsPassMessage arriving
                 else wsFailMessage duration arriving⟩]) ∧
    (∀ (symbol : String) (duration : Nat) (arriving : List WSMessage)
        (st : TesterState) (buffer : List WSMessage),
        (∀ m ∈ arriving, m.event ≠ "tick" ∧ m.event ≠ "historical_data") →
        (test_websocket_market_data symbol duration arriving st buffer).1.test_results
          = st.test_results
            ++ [⟨wsName symbol, false,
                 "No market data received in " ++ toString duration ++ "s"
                   ++ wsExtraInfo arriving⟩]) := by
  have hws : ∀ arriving : List WSMessage,
      (wsSuccess arriving = true
        ↔ arriving.any (fun m => m.event == "tick" || m.event == "historical_data") = true) := by
    intro arriving
    simp only [wsSuccess, Bool.or_eq_true, decide_eq_true_eq, List.length_pos,
      ← List.isEmpty_eq_false, List.isEmpty_eq_false_iff_exists_mem,
      List.any_eq_true, List.mem_filter]
    constructor
    · rintro (⟨m, hm, he⟩ | ⟨m, hm, he⟩)
      · exact ⟨m, hm, by simp [he]⟩
      · exact ⟨m, hm, by simp [he]⟩
    · rintro ⟨m, hm, he⟩
      rcases he with h2 | h2
      · exact Or.inl ⟨m, ⟨hm, h2⟩⟩
      · exact Or.inr ⟨m, ⟨hm, h2⟩⟩
  refine ⟨?_, ?_, ?_, ?_⟩
  · intro symbol duration arriving st buffer
    rfl
  · intro symbol duration arriving st buffer
    exact hws arriving
  · intro symbol duration arriving st buffer
    unfold test_websocket_market_data
    cases hs : wsSuccess arriving <;>
      simp only [hs, if_true, if_false, Bool.false_eq_true, record_test_result] <;> rfl
  · intro symbol duration arriving st buffer h
    have hfalse : wsSuccess arriving = false := by
      rw [← Bool.not_eq_true, hws arriving]
      simp only [List.any_eq_true, not_exists]
      rintro m
      rw [not_and]
      intro hm he
      rcases Bool.or_eq_true_iff.1 he with h2 | h2
      · exact absurd (by simpa using h2) (h m hm).1
      · exact absurd (by simpa using h2) (h m hm).2
    unfold test_websocket_market_data
    simp only [hfalse, Bool.false_eq_true, if_false, record_test_result, wsFailMessage]

/-- The four fields the health check requires (test.py line 140). -/
def health_required_fields : List String :=
  ["status", "connectedUsers", "activeSymbols", "uptime"]

/-- Python `format(value, ".1f")` on a JSON value: numbers (and
booleans, which Python treats as integers) format; any other type
raises.  The exact decimal rendering is irrelevant to the claims and is
approximated. -/
def formatFixed1 : JVal → Except String String
  | JVal.num q => Except.ok (toString q)
  | JVal.jbool b => Except.ok (if b then "1.0" else "0.0")
  | _ => Except.error "ValueError: unknown format code f"

/-- Python `str(value)` as used in plain f-string slots; display only,
so the rendering of composite values is abbreviated. -/
def jStr : JVal → String
  | JVal.str s => s
  | JVal.num q => toString q
  | JVal.jbool b => toString b
  | JVal.null => "None"
  | JVal.arr _ => "<list>"
  | JVal.obj _ => "<dict>"

/-- Python equality of a JSON value against a string, as used by list
membership: only a string compares equal. -/
def jvalEqStr : JVal → String → Bool
  | JVal.str s, key => s == key
  | _, _ => false

/-- Python `key in data` with a string key, including its error
behavior: key membership on a dict, element equality on a list,
substring containment on a string, and an uncaught TypeError on
null, numbers and booleans (None, int and bool are not iterable). -/
def pyContains (v : JVal) (key : String) : Except String Bool :=
  match v with
  | JVal.obj fields => Except.ok (fields.any (fun p => p.1 == key))
  | JVal.arr xs => Except.ok (xs.any (fun x => jvalEqStr x key))
  | JVal.str s => Except.ok (decide (List.IsInfix key.data s.data))
  | _ => Except.error "TypeError: argument not iterable"

/-- Python `data[key]` with a string key: dict lookup (KeyError when the
key is absent), and an uncaught TypeError on every other type (list and
string indices must be integers). -/
def pyIndex (v : JVal) (key : String) : Except String JVal :=
  match v with
  | JVal.obj fields =>
      match (fields.find? (fun p => p.1 == key)).map Prod.snd with
      | some x => Except.ok x
      | none => Except.error ("KeyError: " ++ key)
  | _ => Except.error "TypeError: indices must be integers"

/-- The list comprehension `[field for field in required_fields if field
not in data]` (test.py line 142): the membership test of each field can
raise, and the first raise propagates. -/
def missingFields (body : JVal) : List String → Except String (List String)
  | [] => Except.ok []
  | f :: rest =>
      match pyContains body f with
      | Except.ok c =>
          match missingFields body rest with
          | Except.ok ms => Except.ok (if c then ms else f :: ms)
          | Except.error e => Except.error e
      | Except.error e => Except.error e

/-- The outcome of `test_health_endpoint` (test.py lines 133-168) given
the status and parsed 200 body.  The surrounding Python `try` catches
only `requests.exceptions.RequestException`, so a TypeError from the
`in` test on a non-dict body, a TypeError from string indexing of a
list/str body, or the ValueError from `.1f`-formatting a non-numeric
`uptime` all escape the check, modelled as `Except.error`.  Connection
errors, caught and recorded in the source, are outside this model,
which feeds the check a delivered response. -/
def test_health_endpoint (status : Nat) (body : JVal) : Except String TestResult :=
  if status == 200 then
    match missingFields body health_required_fields with
    | Except.error e => Except.error e
    | Except.ok missing_fields =>
      if missing_fields.isEmpty then
        match pyContains body "authenticatedUsers" with
        | Except.error e => Except.error e
        | Except.ok hasAuth =>
          match (if hasAuth then
                   (pyIndex body "authenticatedUsers").map
                     (fun v => ", Auth Users: " ++ jStr v)
                 else Except.ok "") with
          | Except.error e => Except.error e
          | Except.ok extra_info =>
            match pyIndex body "status", pyIndex body "connectedUsers",
                pyIndex body "uptime" with
            | Except.ok vs, Except.ok vu, Except.ok vup =>
                (formatFixed1 vup).map (fun uf =>
                  ⟨"Health Endpoint", true,
                    "Status: " ++ jStr vs ++ ", Users: " ++ jStr vu ++ extra_info
                      ++ ", Uptime: " ++ uf ++ "s"⟩)
            | Except.error e, _, _ => Except.error e
            | _, Except.error e, _ => Except.error e
            | _, _, Except.error e => Except.error e
      else
        Except.ok ⟨"Health Endpoint", false, "Missing fields: " ++ toString missing_fields⟩
  else
    Except.ok ⟨"Health Endpoint", false, "HTTP " ++ toString status⟩

lemma missingFields_obj (fs : List (String × JVal)) :
    ∀ l : List String,
      missingFields (JVal.obj fs) l
        = Except.ok (l.filter (fun f => !(fs.any (fun p => p.1 == f)))) := by
  intro l
  induction l with
  | nil => rfl
  | cons g rest ih =>
      unfold missingFields
      rw [show pyContains (JVal.obj fs) g = Except.ok (fs.any (fun p => p.1 == g)) from rfl]
      rw [ih]
      cases hg : fs.any (fun p => p.1 == g) <;> simp [List.filter_cons, hg]

/-- A 200 health body with every required field present but a string
typed `uptime`. -/
def badHealthBody : JVal :=
  JVal.obj [("status", JVal.str "healthy"), ("connectedUsers", JVal.num 3),
            ("activeSymbols", JVal.arr []), ("uptime", JVal.str "soon")]

/-- C6 counterexample: on a 200 response whose `uptime` field is a
string, the health check does not return normally — the uncaught
formatting error escapes, so a later check in the run is never
reached. -/
theorem C6_counterexample :
    (test_health_endpoint 200 badHealthBody).isOk = false := rfl

/-- C6 (amended): `record_test_result` always returns, appending its
outcome; the health check returns normally (recording an outcome) for
every non-200 status, for every 200 dict body missing a required field,
and for every well-shaped 200 dict body with a numeric `uptime` — but,
contrary to the claim, a 200 body of unexpected shape raises uncaught
out of the check: a non-dict body (null, a number, a boolean) raises a
TypeError at the field-membership test, and a dict body with every
field present and a non-numeric `uptime` raises a ValueError at the
`.1f` format. -/
theorem C6_check_error_containment :
    (∀ (st : TesterState) (n : String) (s : Bool) (m : String),
        (record_test_result st n s m).test_results = st.test_results ++ [⟨n, s, m⟩]) ∧
    (∀ (status : Nat) (body : JVal), status ≠ 200 →
        (test_health_endpoint status body).isOk = true) ∧
    (∀ (fs : List (String × JVal)) (f : String), f ∈ health_required_fields →
        fs.any (fun p => p.1 == f) = false →
        (test_health_endpoint 200 (JVal.obj fs)).isOk = true) ∧
    ((test_health_endpoint 200 JVal.null).isOk = false
      ∧ (∀ q : ℚ, (test_health_endpoint 200 (JVal.num q)).isOk = false)
      ∧ (∀ b : Bool, (test_health_endpoint 200 (JVal.jbool b)).isOk = false)) ∧
    (∀ (v1 v2 v3 : JVal) (q : ℚ),
        (test_health_endpoint 200 (JVal.obj
          [("status", v1), ("connectedUsers", v2), ("activeSymbols", v3),
           ("uptime", JVal.num q)])).isOk = true) := by
  refine ⟨fun st n s m => rfl, ?_, ?_, ⟨rfl, fun q => rfl, fun b => rfl⟩, ?_⟩
  · intro status body h
    have h2 : (status == 200) = false := by simpa using h
    simp [test_health_endpoint, h2, Except.isOk, Except.toBool]
  · intro fs f hf habs
    have hmf := missingFields_obj fs health_required_fields
    have hmem : f ∈ health_required_fields.filter (fun g => !(fs.any (fun p => p.1 == g))) :=
      List.mem_filter.2 ⟨hf, by simp [habs]⟩
    have hne : health_required_fields.filter (fun g => !(fs.any (fun p => p.1 == g))) ≠ [] :=
      List.ne_nil_of_mem hmem
    have hemp : (health_required_fields.filter
        (fun g => !(fs.any (fun p => p.1 == g)))).isEmpty = false := by
      simpa [List.isEmpty_eq_false] using hne
    simp only [test_health_endpoint, hmf, hemp, Bool.false_eq_true, if_false,
      Nat.reduceBEq, if_true, Except.isOk, Except.toBool, beq_self_eq_true]
  · intro v1 v2 v3 q
    rfl

/-- C6 witness: the amended theorem applied at a 404 response and at a
200 dict response missing `uptime`. -/
theorem C6_check_error_containment_witness :
    ((404 : Nat) ≠ 200 ∧ (test_health_endpoint 404 JVal.null).isOk = true)
      ∧ ("uptime" ∈ health_required_fields
          ∧ ([("status", JVal.str "ok")] : List (String × JVal)).any
              (fun p => p.1 == "uptime") = false
          ∧ (test_health_endpoint 200
              (JVal.obj [("status", JVal.str "ok")])).isOk = true) :=
  ⟨⟨by decide, C6_check_error_containment.2.1 404 JVal.null (by decide)⟩,
   ⟨by simp [health_required_fields], rfl,
    C6_check_error_containment.2.2.1 [("status", JVal.str "ok")] "uptime"
      (by simp [health_required_fields]) rfl⟩⟩

/-- C4 witness: the amended theorem applied to an empty observation
window of 5 seconds. -/
theorem C4_ws_market_data_witness :
    (∀ m ∈ ([] : List WSMessage), m.event ≠ "tick" ∧ m.event ≠ "historical_data")
      ∧ (test_websocket_market_data "AAPL" 5 [] initialState []).1.test_results
          = initialState.test_results
            ++ [⟨wsName "AAPL", false,
                 "No market data received in " ++ toString 5 ++ "s" ++ wsExtraInfo []⟩] :=
  ⟨by simp, C4_ws_market_data.2.2.2 "AAPL" 5 [] initialState [] (by simp)⟩

end LiveTradingSim
